import Mathlib

/-!
Verification development for the `dump_opentype_font` tool (`src/main.rs`).

The program reads a font binary, parses it with the `ttf_parser` crate, and
emits per-font metadata.  We shallowly embed the repository's own code:

* the name-record decoding heuristic of `impl TryFrom<ttf_parser::Name> for Name`,
* the `NameId` resolver (`impl From<u16> for NameId`),
* the `language` lookup function,
* the `VariationAxis` conversion (`impl From<ttf_parser::VariationAxis>`),
* `Font::from_bytes` and `Collection::from_bytes`.

The `ttf_parser` crate is an external collaborator: its accessors are modelled
by records (`RawName`, `FontView`, `FontFile`) carrying the accessor results,
and its small documented helpers (`Tag::is_null`, `Tag::to_chars`, the
OpenType `name_id` constants, `PlatformId`) are embedded from their documented
behaviour.  Bytes are `Nat` (< 256), u16 code units are `Nat` (< 2^16).
Rust `Result` becomes `Except`; a Rust panic (out-of-bounds index) is a
distinct outcome of the decoder.
-/

/-- Big-endian pairing of bytes into 16-bit code units: models
`(0..len / 2).map(|i| u16::from_be_bytes([b[2 * i], b[2 * i + 1]]))`.
A trailing odd byte is dropped, exactly as `len / 2` does. -/
def bytesToUnits : List Nat → List Nat
  | b1 :: b2 :: rest => (b1 * 256 + b2) :: bytesToUnits rest
  | _ => []

/-- UTF-16 decoding of a list of 16-bit code units into Unicode code points;
models `std::char::decode_utf16(iter).collect::<Result<_, _>>()`: a high
surrogate must be followed by a low surrogate, an unpaired surrogate is a
decode error (`none`). -/
def decodeUtf16 : List Nat → Option (List Nat)
  | [] => some []
  | u :: rest =>
    if u < 0xD800 || 0xDFFF < u then
      (decodeUtf16 rest).map (fun cps => u :: cps)
    else if u ≤ 0xDBFF then
      match rest with
      | [] => none
      | v :: rest2 =>
        if 0xDC00 ≤ v && v ≤ 0xDFFF then
          (decodeUtf16 rest2).map
            (fun cps => (0x10000 + (u - 0xD800) * 0x400 + (v - 0xDC00)) :: cps)
        else none
    else none

/-- UTF-8 continuation byte test (`0x80..=0xBF`). -/
def isCont (b : Nat) : Bool := 0x80 ≤ b && b ≤ 0xBF

/-- Worker for `utf8Lossy`.  Every step consumes at least one byte and spends
exactly one unit of fuel, so fuel `l.length` is always enough. -/
def utf8LossyGo : Nat → List Nat → List Nat
  | 0, _ => []
  | _ + 1, [] => []
  | fuel + 1, b :: rest =>
    if b < 0x80 then
      b :: utf8LossyGo fuel rest
    else if 0xC2 ≤ b && b ≤ 0xDF then
      match rest with
      | [] => [0xFFFD]
      | b2 :: rest2 =>
        if isCont b2 then
          ((b - 0xC0) * 0x40 + (b2 - 0x80)) :: utf8LossyGo fuel rest2
        else
          0xFFFD :: utf8LossyGo fuel rest
    else if 0xE0 ≤ b && b ≤ 0xEF then
      match rest with
      | [] => [0xFFFD]
      | b2 :: rest2 =>
        if (b == 0xE0 && 0xA0 ≤ b2 && b2 ≤ 0xBF) ||
            (0xE1 ≤ b && b ≤ 0xEC && isCont b2) ||
            (b == 0xED && 0x80 ≤ b2 && b2 ≤ 0x9F) ||
            (0xEE ≤ b && isCont b2) then
          match rest2 with
          | [] => [0xFFFD]
          | b3 :: rest3 =>
            if isCont b3 then
              ((b - 0xE0) * 0x1000 + (b2 - 0x80) * 0x40 + (b3 - 0x80)) ::
                utf8LossyGo fuel rest3
            else
              0xFFFD :: utf8LossyGo fuel rest2
        else
          0xFFFD :: utf8LossyGo fuel rest
    else if 0xF0 ≤ b && b ≤ 0xF4 then
      match rest with
      | [] => [0xFFFD]
      | b2 :: rest2 =>
        if (b == 0xF0 && 0x90 ≤ b2 && b2 ≤ 0xBF) ||
            (0xF1 ≤ b && b ≤ 0xF3 && isCont b2) ||
            (b == 0xF4 && 0x80 ≤ b2 && b2 ≤ 0x8F) then
          match rest2 with
          | [] => [0xFFFD]
          | b3 :: rest3 =>
            if isCont b3 then
              match rest3 with
              | [] => [0xFFFD]
              | b4 :: rest4 =>
                if isCont b4 then
                  ((b - 0xF0) * 0x40000 + (b2 - 0x80) * 0x1000 +
                    (b3 - 0x80) * 0x40 + (b4 - 0x80)) :: utf8LossyGo fuel rest4
                else
                  0xFFFD :: utf8LossyGo fuel rest3
            else
              0xFFFD :: utf8LossyGo fuel rest2
        else
          0xFFFD :: utf8LossyGo fuel rest
    else
      0xFFFD :: utf8LossyGo fuel rest

/-- Lossy UTF-8 decoding into code points; models Rust
`String::from_utf8_lossy`: each maximal invalid subpart is replaced by one
U+FFFD, scanning resumes at the first offending byte, and a truncated
sequence at the end of input yields a single U+FFFD. -/
def utf8Lossy (l : List Nat) : List Nat := utf8LossyGo l.length l

/-- Render decoded code points as a string (all code points produced by the
two decoders above are Unicode scalar values). -/
def codePointsToString (cps : List Nat) : String :=
  String.mk (cps.map Char.ofNat)

/-- Outcome of decoding one name-record byte payload. `panic` models the Rust
out-of-bounds index panic at `name_bytes[0]`; `utf16Error` models the `?` on
`decode_utf16(...).collect::<Result<String, _>>()`. -/
inductive DecodeResult where
  | ok (s : String)
  | utf16Error
  | panic
  deriving DecidableEq, Repr

/-- The name-string computation in `Name::try_from` (src/main.rs lines
121-131): index byte 0 (panicking on an empty payload), then, if that byte is
zero and the length is even, decode as big-endian UTF-16, else decode as
lossy UTF-8. -/
def decodeNameBytes (name_bytes : List Nat) : DecodeResult :=
  match name_bytes.head? with
  | none => .panic
  | some b0 =>
    if b0 = 0 ∧ name_bytes.length % 2 = 0 then
      match decodeUtf16 (bytesToUnits name_bytes) with
      | some cps => .ok (codePointsToString cps)
      | none => .utf16Error
    else
      .ok (codePointsToString (utf8Lossy name_bytes))


/-- `ttf_parser::PlatformId` (external crate enum; `Name::platform_id()`
returns `Option PlatformId`, `none` for an out-of-range raw value). -/
inductive PlatformId where
  | Unicode
  | Macintosh
  | Iso
  | Windows
  | Custom
  deriving DecidableEq, Repr

/-- Debug rendering of `PlatformId`, as used by `format!("{:?}", id)`. -/
def PlatformId.debugStr : PlatformId → String
  | .Unicode => "Unicode"
  | .Macintosh => "Macintosh"
  | .Iso => "Iso"
  | .Windows => "Windows"
  | .Custom => "Custom"

/-- The Windows-platform arm of `language` (src/main.rs lines 207-415): the
Rust `match` over pairwise-distinct integer literals, embedded as a
first-match association list.  Entries are transcribed verbatim, in source
order, including the `0 => "None"` arm. -/
def windowsLanguages : List (Nat × String) := [
  (0, "None"),
  (0x0436, "Afrikaans (South Africa)"),
  (0x041C, "Albanian (Albania)"),
  (0x0484, "Alsatian (France)"),
  (0x045E, "Amharic (Ethiopia)"),
  (0x1401, "Arabic (Algeria)"),
  (0x3C01, "Arabic (Bahrain)"),
  (0x0C01, "Arabic (Egypt)"),
  (0x0801, "Arabic (Iraq)"),
  (0x2C01, "Arabic (Jordan)"),
  (0x3401, "Arabic (Kuwait)"),
  (0x3001, "Arabic (Lebanon)"),
  (0x1001, "Arabic (Libya)"),
  (0x1801, "Arabic (Morocco)"),
  (0x2001, "Arabic (Oman)"),
  (0x4001, "Arabic (Qatar)"),
  (0x0401, "Arabic (Saudi Arabia)"),
  (0x2801, "Arabic (Syria)"),
  (0x1C01, "Arabic (Tunisia)"),
  (0x3801, "Arabic (U.A.E.)"),
  (0x2401, "Arabic (Yemen)"),
  (0x042B, "Armenian (Armenia)"),
  (0x044D, "Assamese (India)"),
  (0x082C, "Azeri (Cyrillic) (Azerbaijan)"),
  (0x042C, "Azeri (Latin) (Azerbaijan)"),
  (0x046D, "Bashkir (Russia)"),
  (0x042D, "Basque (Basque)"),
  (0x0423, "Belarusian (Belarus)"),
  (0x0845, "Bengali (Bangladesh)"),
  (0x0445, "Bengali (India)"),
  (0x201A, "Bosnian (Cyrillic) (Bosnia and Herzegovina)"),
  (0x141A, "Bosnian (Latin) (Bosnia and Herzegovina)"),
  (0x047E, "Breton (France)"),
  (0x0402, "Bulgarian (Bulgaria)"),
  (0x0403, "Catalan (Catalan)"),
  (0x0C04, "Chinese (Hong Kong S.A.R.)"),
  (0x1404, "Chinese (Macao S.A.R.)"),
  (0x0804, "Chinese (People’s Republic of China)"),
  (0x1004, "Chinese (Singapore)"),
  (0x0404, "Chinese (Taiwan)"),
  (0x0483, "Corsican (France)"),
  (0x041A, "Croatian (Croatia)"),
  (0x101A, "Croatian (Latin) (Bosnia and Herzegovina)"),
  (0x0405, "Czech (Czech Republic)"),
  (0x0406, "Danish (Denmark)"),
  (0x048C, "Dari (Afghanistan)"),
  (0x0465, "Divehi (Maldives)"),
  (0x0813, "Dutch (Belgium)"),
  (0x0413, "Dutch (Netherlands)"),
  (0x0C09, "English (Australia)"),
  (0x2809, "English (Belize)"),
  (0x1009, "English (Canada)"),
  (0x2409, "English (Caribbean)"),
  (0x4009, "English (India)"),
  (0x1809, "English (Ireland)"),
  (0x2009, "English (Jamaica)"),
  (0x4409, "English (Malaysia)"),
  (0x1409, "English (New Zealand)"),
  (0x3409, "English (Republic of the Philippines)"),
  (0x4809, "English (Singapore)"),
  (0x1C09, "English (South Africa)"),
  (0x2C09, "English (Trinidad and Tobago)"),
  (0x0809, "English (United Kingdom)"),
  (0x0409, "English (United States)"),
  (0x3009, "English (Zimbabwe)"),
  (0x0425, "Estonian (Estonia)"),
  (0x0438, "Faroese (Faroe Islands)"),
  (0x0464, "Filipino (Philippines)"),
  (0x040B, "Finnish (Finland)"),
  (0x080C, "French (Belgium)"),
  (0x0C0C, "French (Canada)"),
  (0x040C, "French (France)"),
  (0x140c, "French (Luxembourg)"),
  (0x180C, "French (Principality of Monaco)"),
  (0x100C, "French (Switzerland)"),
  (0x0462, "Frisian (Netherlands)"),
  (0x0456, "Galician (Galician)"),
  (0x0437, "Georgian (Georgia)"),
  (0x0C07, "German (Austria)"),
  (0x0407, "German (Germany)"),
  (0x1407, "German (Liechtenstein)"),
  (0x1007, "German (Luxembourg)"),
  (0x0807, "German (Switzerland)"),
  (0x0408, "Greek (Greece)"),
  (0x046F, "Greenlandic (Greenland)"),
  (0x0447, "Gujarati (India)"),
  (0x0468, "Hausa (Latin) (Nigeria)"),
  (0x040D, "Hebrew (Israel)"),
  (0x0439, "Hindi (India)"),
  (0x040E, "Hungarian (Hungary)"),
  (0x040F, "Icelandic (Iceland)"),
  (0x0470, "Igbo (Nigeria)"),
  (0x0421, "Indonesian (Indonesia)"),
  (0x045D, "Inuktitut (Canada)"),
  (0x085D, "Inuktitut (Latin) (Canada)"),
  (0x083C, "Irish (Ireland)"),
  (0x0434, "isiXhosa (South Africa)"),
  (0x0435, "isiZulu (South Africa)"),
  (0x0410, "Italian (Italy)"),
  (0x0810, "Italian (Switzerland)"),
  (0x0411, "Japanese (Japan)"),
  (0x044B, "Kannada (India)"),
  (0x043F, "Kazakh (Kazakhstan)"),
  (0x0453, "Khmer (Cambodia)"),
  (0x0486, "K’iche (Guatemala)"),
  (0x0487, "Kinyarwanda (Rwanda)"),
  (0x0441, "Kiswahili (Kenya)"),
  (0x0457, "Konkani (India)"),
  (0x0412, "Korean (Korea)"),
  (0x0440, "Kyrgyz (Kyrgyzstan)"),
  (0x0454, "Lao (Lao P.D.R.)"),
  (0x0426, "Latvian (Latvia)"),
  (0x0427, "Lithuanian (Lithuania)"),
  (0x082E, "Lower Sorbian (Germany)"),
  (0x046E, "Luxembourgish (Luxembourg)"),
  (0x042F, "Macedonian (FYROM) (Former Yugoslav Republic of Macedonia)"),
  (0x083E, "Malay (Brunei Darussalam)"),
  (0x043E, "Malay (Malaysia)"),
  (0x044C, "Malayalam (India)"),
  (0x043A, "Maltese (Malta)"),
  (0x0481, "Maori (New Zealand)"),
  (0x047A, "Mapudungun (Chile)"),
  (0x044E, "Marathi (India)"),
  (0x047C, "Mohawk (Mohawk)"),
  (0x0450, "Mongolian (Cyrillic) (Mongolia)"),
  (0x0850, "Mongolian (Traditional) (People’s Republic of China)"),
  (0x0461, "Nepali (Nepal)"),
  (0x0414, "Norwegian (Bokmal) (Norway)"),
  (0x0814, "Norwegian (Nynorsk) (Norway)"),
  (0x0482, "Occitan (France)"),
  (0x0448, "Odia (formerly Oriya) (India)"),
  (0x0463, "Pashto (Afghanistan)"),
  (0x0415, "Polish (Poland)"),
  (0x0416, "Portuguese (Brazil)"),
  (0x0816, "Portuguese (Portugal)"),
  (0x0446, "Punjabi (India)"),
  (0x046B, "Quechua (Bolivia)"),
  (0x086B, "Quechua (Ecuador)"),
  (0x0C6B, "Quechua (Peru)"),
  (0x0418, "Romanian (Romania)"),
  (0x0417, "Romansh (Switzerland)"),
  (0x0419, "Russian (Russia)"),
  (0x243B, "Sami (Inari) (Finland)"),
  (0x103B, "Sami (Lule) (Norway)"),
  (0x143B, "Sami (Lule) (Sweden)"),
  (0x0C3B, "Sami (Northern) (Finland)"),
  (0x043B, "Sami (Northern) (Norway)"),
  (0x083B, "Sami (Northern) (Sweden)"),
  (0x203B, "Sami (Skolt) (Finland)"),
  (0x183B, "Sami (Southern) (Norway)"),
  (0x1C3B, "Sami (Southern) (Sweden)"),
  (0x044F, "Sanskrit (India)"),
  (0x1C1A, "Serbian (Cyrillic) (Bosnia and Herzegovina)"),
  (0x0C1A, "Serbian (Cyrillic) (Serbia)"),
  (0x181A, "Serbian (Latin) (Bosnia and Herzegovina)"),
  (0x081A, "Serbian (Latin) (Serbia)"),
  (0x046C, "Sesotho sa Leboa (South Africa)"),
  (0x0432, "Setswana (South Africa)"),
  (0x045B, "Sinhala (Sri Lanka)"),
  (0x041B, "Slovak (Slovakia)"),
  (0x0424, "Slovenian (Slovenia)"),
  (0x2C0A, "Spanish (Argentina)"),
  (0x400A, "Spanish (Bolivia)"),
  (0x340A, "Spanish (Chile)"),
  (0x240A, "Spanish (Colombia)"),
  (0x140A, "Spanish (Costa Rica)"),
  (0x1C0A, "Spanish (Dominican Republic)"),
  (0x300A, "Spanish (Ecuador)"),
  (0x440A, "Spanish (El Salvador)"),
  (0x100A, "Spanish (Guatemala)"),
  (0x480A, "Spanish (Honduras)"),
  (0x080A, "Spanish (Mexico)"),
  (0x4C0A, "Spanish (Nicaragua)"),
  (0x180A, "Spanish (Panama)"),
  (0x3C0A, "Spanish (Paraguay)"),
  (0x280A, "Spanish (Peru)"),
  (0x500A, "Spanish (Puerto Rico)"),
  (0x0C0A, "Spanish (Modern Sort) (Spain)"),
  (0x040A, "Spanish (Traditional Sort) (Spain)"),
  (0x540A, "Spanish (United States)"),
  (0x380A, "Spanish (Uruguay)"),
  (0x200A, "Spanish (Venezuela)"),
  (0x081D, "Sweden (Finland)"),
  (0x041D, "Swedish (Sweden)"),
  (0x045A, "Syriac (Syria)"),
  (0x0428, "Tajik (Cyrillic) (Tajikistan)"),
  (0x085F, "Tamazight (Latin) (Algeria)"),
  (0x0449, "Tamil (India)"),
  (0x0444, "Tatar (Russia)"),
  (0x044A, "Telugu (India)"),
  (0x041E, "Thai (Thailand)"),
  (0x0451, "Tibetan (PRC)"),
  (0x041F, "Turkish (Turkey)"),
  (0x0442, "Turkmen (Turkmenistan)"),
  (0x0480, "Uighur (PRC)"),
  (0x0422, "Ukrainian (Ukraine)"),
  (0x042E, "Upper Sorbian (Germany)"),
  (0x0420, "Urdu (Islamic Republic of Pakistan)"),
  (0x0843, "Uzbek (Cyrillic) (Uzbekistan)"),
  (0x0443, "Uzbek (Latin) (Uzbekistan)"),
  (0x042A, "Vietnamese (Vietnam)"),
  (0x0452, "Welsh (United Kingdom)"),
  (0x0488, "Wolof (Senegal)"),
  (0x0485, "Yakut (Russia)"),
  (0x0478, "Yi (PRC)"),
  (0x046A, "Yoruba (Nigeria)")]

/-- `fn language(platform_id: Option<PlatformId>, language_id: u16)`
(src/main.rs lines 204-418): Windows ids go through the table above with
default "unknown"; every other platform (including an unknown one) yields
"unknown (todo)". -/
def language (platform_id : Option PlatformId) (language_id : Nat) : String :=
  match platform_id with
  | some .Windows =>
    match windowsLanguages.find? (fun e => e.1 = language_id) with
    | some e => e.2
    | none => "unknown"
  | _ => "unknown (todo)"


/-- `pub enum NameId` (src/main.rs lines 140-168). -/
inductive NameId where
  | CompatibleFull
  | CopyrightNotice
  | DarkBackgroundPallete
  | Description
  | Designer
  | DesignerURL
  | Family
  | FullName
  | License
  | LicenseURL
  | LightBackgroundPallete
  | Manufacturer
  | PostScriptCID
  | PostScriptName
  | SampleText
  | Subfamily
  | Trademark
  | TypographicFamily
  | TypographicSubfamily
  | UniqueID
  | VariationsPostScriptNamePrefix
  | VendorURL
  | Version
  | WWSFamily
  | WWSSubfamily
  | Unrecognised (raw : Nat)
  deriving DecidableEq, Repr

/-- The recognized name-id arms of `impl From<u16> for NameId` (src/main.rs
lines 170-202), in source order.  The `ttf_parser::name_id` constants are the
numeric name IDs of the OpenType `name` table: COMPATIBLE_FULL = 18,
COPYRIGHT_NOTICE = 0, DARK_BACKGROUND_PALETTE = 24, DESCRIPTION = 10,
DESIGNER = 9, DESIGNER_URL = 12, FAMILY = 1, FULL_NAME = 4, LICENSE = 13,
LICENSE_URL = 14, LIGHT_BACKGROUND_PALETTE = 23, MANUFACTURER = 8,
POST_SCRIPT_CID = 20, POST_SCRIPT_NAME = 6, SAMPLE_TEXT = 19, SUBFAMILY = 2,
TRADEMARK = 7, TYPOGRAPHIC_FAMILY = 16, TYPOGRAPHIC_SUBFAMILY = 17,
UNIQUE_ID = 3, VARIATIONS_POST_SCRIPT_NAME_PREFIX = 25, VENDOR_URL = 11,
VERSION = 5, WWS_FAMILY = 21, WWS_SUBFAMILY = 22.  The Rust `match` over
pairwise-distinct literals is embedded as a first-match association list. -/
def nameIdTable : List (Nat × NameId) := [
  (18, NameId.CompatibleFull),
  (0, NameId.CopyrightNotice),
  (24, NameId.DarkBackgroundPallete),
  (10, NameId.Description),
  (9, NameId.Designer),
  (12, NameId.DesignerURL),
  (1, NameId.Family),
  (4, NameId.FullName),
  (13, NameId.License),
  (14, NameId.LicenseURL),
  (23, NameId.LightBackgroundPallete),
  (8, NameId.Manufacturer),
  (20, NameId.PostScriptCID),
  (6, NameId.PostScriptName),
  (19, NameId.SampleText),
  (2, NameId.Subfamily),
  (7, NameId.Trademark),
  (16, NameId.TypographicFamily),
  (17, NameId.TypographicSubfamily),
  (3, NameId.UniqueID),
  (25, NameId.VariationsPostScriptNamePrefix),
  (11, NameId.VendorURL),
  (5, NameId.Version),
  (21, NameId.WWSFamily),
  (22, NameId.WWSSubfamily)]

/-- `impl From<u16> for NameId` (src/main.rs lines 170-202): the catch-all
arm is `other => NameId::Unrecognised(other)`.  (Lean reserves `from` as a
keyword, hence the name `ofRaw`.) -/
def NameId.ofRaw (raw : Nat) : NameId :=
  match nameIdTable.find? (fun e => e.1 = raw) with
  | some e => e.2
  | none => NameId.Unrecognised raw


/-- The error value of the extraction pipeline (`anyhow::Error` in the Rust),
together with the Rust panic outcome: `cannotParseFont ix` is the
`format_err!("cannot parse font at index {}", ix)` value, `utf16DecodeError`
the propagated `DecodeUtf16Error`, and `panicOutOfBounds` the out-of-bounds
index panic in `Name::try_from` (a panic aborts the process, so no value is
produced either way). -/
inductive ExtractError where
  | cannotParseFont (index : Nat)
  | utf16DecodeError
  | panicOutOfBounds
  deriving DecidableEq, Repr

/-- The user-visible message of an extraction error. -/
def ExtractError.message : ExtractError → String
  | .cannotParseFont index => "cannot parse font at index " ++ toString index
  | .utf16DecodeError => "unpaired surrogate in name record"
  | .panicOutOfBounds => "index out of bounds"

/-- One raw record of the font naming table, as handed to `Name::try_from`:
the results of the `ttf_parser::Name` accessors `platform_id()`, `name()`,
`name_id()`, `encoding_id()`, `language_id()`. -/
structure RawName where
  platform_id : Option PlatformId
  name : List Nat
  name_id : Nat
  encoding_id : Nat
  language_id : Nat
  deriving DecidableEq, Repr

/-- Alias for `language`: inside the `Name` namespace the field projection
`Name.language` shadows the top-level function, so `Name.tryFrom` refers to
the function through this alias. -/
def resolveLanguage (platform_id : Option PlatformId) (language_id : Nat) : String :=
  language platform_id language_id

/-- `pub struct Name` (src/main.rs lines 106-114). -/
structure Name where
  name_id : NameId
  name : String
  platform_id : Option String
  language : String
  encoding_id : Nat
  language_id : Nat
  deriving DecidableEq, Repr

/-- `impl TryFrom<ttf_parser::Name> for Name` (src/main.rs lines 116-138):
the `?` on the UTF-16 decode propagates its error. -/
def Name.tryFrom (raw : RawName) : Except ExtractError Name :=
  match decodeNameBytes raw.name with
  | .utf16Error => Except.error ExtractError.utf16DecodeError
  | .panic => Except.error ExtractError.panicOutOfBounds
  | .ok decoded =>
    Except.ok {
      platform_id := raw.platform_id.map PlatformId.debugStr
      name := decoded
      language := resolveLanguage raw.platform_id raw.language_id
      name_id := NameId.ofRaw raw.name_id
      encoding_id := raw.encoding_id
      language_id := raw.language_id }

/-- A 32-bit IEEE float value, modelled by its bit pattern: the program never
computes with the axis floats, it only copies them, so the bit pattern is a
faithful representation. -/
structure F32 where
  bits : Nat
  deriving DecidableEq, Repr

/-- `ttf_parser::Tag`: a 32-bit big-endian four-character code. -/
structure Tag where
  value : Nat
  deriving DecidableEq, Repr

/-- `Tag::is_null()`: the tag whose 32-bit value is zero. -/
def Tag.isNull (t : Tag) : Bool := t.value == 0

/-- `Tag::to_chars()`: the four bytes of the tag, most significant first,
each as a character. -/
def Tag.toChars (t : Tag) : List Char :=
  [Char.ofNat (t.value / 0x1000000 % 256),
   Char.ofNat (t.value / 0x10000 % 256),
   Char.ofNat (t.value / 0x100 % 256),
   Char.ofNat (t.value % 256)]

/-- `ttf_parser::VariationAxis`: the raw axis record as produced by the
parsing crate (fields `tag`, `min_value`, `def_value`, `max_value`,
`name_id`, `hidden`). -/
structure RawVariationAxis where
  tag : Tag
  min_value : F32
  def_value : F32
  max_value : F32
  name_id : Nat
  hidden : Bool
  deriving DecidableEq, Repr

/-- `pub struct VariationAxis` (src/main.rs lines 420-428). -/
structure VariationAxis where
  tag : Option String
  min_value : F32
  default_value : F32
  max_value : F32
  name_id : Nat
  hidden : Bool
  deriving DecidableEq, Repr

/-- `impl From<ttf_parser::VariationAxis> for VariationAxis` (src/main.rs
lines 430-446): `format!("{}{}{}{}", c[0], c[1], c[2], c[3])` on the tag
characters when the tag is not null, all other fields copied verbatim. -/
def VariationAxis.ofRaw (raw : RawVariationAxis) : VariationAxis :=
  { tag := if raw.tag.isNull then none else some (String.mk raw.tag.toChars)
    min_value := raw.min_value
    default_value := raw.def_value
    max_value := raw.max_value
    name_id := raw.name_id
    hidden := raw.hidden }


/-- The parsed font view at one index: the results of every `ttf_parser`
accessor that `Font::from_bytes` reads (the crate is an external
collaborator, so its outputs are the inputs of our model).  `weight`,
`width` and the four metrics records appear after their `format!("{:?}", _)`
rendering, which is performed by the external crate's `Debug` instances. -/
structure FontView where
  names : List RawName
  family_name : Option String
  post_script_name : Option String
  is_regular : Bool
  is_italic : Bool
  is_bold : Bool
  is_oblique : Bool
  is_variable : Bool
  weight : String
  width : String
  ascender : Int
  descender : Int
  height : Int
  line_gap : Int
  vertical_ascender : Option Int
  vertical_descender : Option Int
  vertical_height : Option Int
  vertical_line_gap : Option Int
  units_per_em : Option Nat
  x_height : Option Int
  underline_metrics : Option String
  strikeout_metrics : Option String
  subscript_metrics : Option String
  superscript_metrics : Option String
  variation_axes : List RawVariationAxis

/-- `pub struct Font` (src/main.rs lines 40-67). -/
structure Font where
  names : List Name
  family_name : Option String
  post_script_name : Option String
  is_regular : Bool
  is_italic : Bool
  is_bold : Bool
  is_oblique : Bool
  is_variable : Bool
  weight : String
  width : String
  ascender : Int
  descender : Int
  height : Int
  line_gap : Int
  vertical_ascender : Option Int
  vertical_descender : Option Int
  vertical_height : Option Int
  vertical_line_gap : Option Int
  units_per_em : Option Nat
  x_height : Option Int
  underline_metrics : Option String
  strikeout_metrics : Option String
  subscript_metrics : Option String
  superscript_metrics : Option String
  variation_axes : List VariationAxis
  deriving DecidableEq, Repr

/-- `iter.map(f).collect::<Result<Vec<_>, _>>()`: map a fallible function
over a list, short-circuiting at the first error. -/
def mapExcept (f : α → Except ε β) : List α → Except ε (List β)
  | [] => Except.ok []
  | x :: xs =>
    match f x with
    | Except.error e => Except.error e
    | Except.ok y =>
      match mapExcept f xs with
      | Except.error e => Except.error e
      | Except.ok ys => Except.ok (y :: ys)

/-- The whole input buffer as seen through `ttf_parser`:
`collection_count` is the result of `ttf_parser::fonts_in_collection(input)`
(`none` when the buffer is not a collection container), and `fonts ix` is
the result of `ttf_parser::Font::from_data(input, ix)` (`none` when the
index cannot be parsed as a valid font). -/
structure FontFile where
  collection_count : Option Nat
  fonts : Nat → Option FontView

/-- The body of `Font::from_bytes` after a successful
`ttf_parser::Font::from_data` (src/main.rs lines 73-102): decode every name
record (short-circuiting on the first failure) and copy every other
accessor result. -/
def Font.fromView (v : FontView) : Except ExtractError Font :=
  match mapExcept Name.tryFrom v.names with
  | Except.error e => Except.error e
  | Except.ok decodedNames =>
  Except.ok {
    names := decodedNames
    family_name := v.family_name
    post_script_name := v.post_script_name
    is_regular := v.is_regular
    is_italic := v.is_italic
    is_bold := v.is_bold
    is_oblique := v.is_oblique
    is_variable := v.is_variable
    weight := v.weight
    width := v.width
    ascender := v.ascender
    descender := v.descender
    height := v.height
    line_gap := v.line_gap
    vertical_ascender := v.vertical_ascender
    vertical_descender := v.vertical_descender
    vertical_height := v.vertical_height
    vertical_line_gap := v.vertical_line_gap
    units_per_em := v.units_per_em
    x_height := v.x_height
    underline_metrics := v.underline_metrics
    strikeout_metrics := v.strikeout_metrics
    subscript_metrics := v.subscript_metrics
    superscript_metrics := v.superscript_metrics
    variation_axes := v.variation_axes.map VariationAxis.ofRaw }

/-- `Font::from_bytes(input, index)` (src/main.rs lines 70-103):
`ttf_parser::Font::from_data(input, index)` failing yields
`format_err!("cannot parse font at index {}", index)`. -/
def Font.from_bytes (input : FontFile) (index : Nat) : Except ExtractError Font :=
  match input.fonts index with
  | none => Except.error (ExtractError.cannotParseFont index)
  | some v => Font.fromView v

/-- `pub struct Collection` (src/main.rs lines 24-27). -/
structure Collection where
  fonts : List Font
  deriving DecidableEq, Repr

/-- `Collection::from_bytes` (src/main.rs lines 30-37):
`let count = fonts_in_collection(input).unwrap_or(1)`, then push
`Font::from_bytes(input, ix)?` for `ix in 0..count`. -/
def Collection.from_bytes (input : FontFile) : Except ExtractError Collection :=
  match mapExcept (Font.from_bytes input) (List.range (input.collection_count.getD 1)) with
  | Except.error e => Except.error e
  | Except.ok fonts => Except.ok { fonts := fonts }

/-! ## Helper lemmas -/

theorem mapExcept_ok_length {α β ε : Type} {f : α → Except ε β} :
    ∀ {l : List α} {res : List β},
      mapExcept f l = Except.ok res → res.length = l.length := by
  intro l
  induction l with
  | nil =>
      intro res h
      simp only [mapExcept, Except.ok.injEq] at h
      simp [← h]
  | cons x xs ih =>
      intro res h
      unfold mapExcept at h
      cases hfx : f x with
      | error e => rw [hfx] at h; simp at h
      | ok y =>
        rw [hfx] at h
        cases hm : mapExcept f xs with
        | error e => rw [hm] at h; simp at h
        | ok ys =>
          rw [hm] at h
          simp only [Except.ok.injEq] at h
          subst h
          simp [ih hm]

theorem mapExcept_ok_get {α β ε : Type} {f : α → Except ε β} :
    ∀ {l : List α} {res : List β}, mapExcept f l = Except.ok res →
      ∀ i (hi : i < l.length) (hi2 : i < res.length),
        f (l.get ⟨i, hi⟩) = Except.ok (res.get ⟨i, hi2⟩) := by
  intro l
  induction l with
  | nil =>
      intro res h i hi hi2
      exact absurd hi (by simp)
  | cons x xs ih =>
      intro res h i hi hi2
      unfold mapExcept at h
      cases hfx : f x with
      | error e => rw [hfx] at h; simp at h
      | ok y =>
        rw [hfx] at h
        cases hm : mapExcept f xs with
        | error e => rw [hm] at h; simp at h
        | ok ys =>
          rw [hm] at h
          simp only [Except.ok.injEq] at h
          subst h
          cases i with
          | zero => simpa using hfx
          | succ j => exact ih hm j (by simpa using hi) (by simpa using hi2)

theorem mapExcept_error_of_mem {α β ε : Type} {f : α → Except ε β} {x : α} {e : ε} :
    ∀ {l : List α}, x ∈ l → f x = Except.error e →
      ∃ e2, mapExcept f l = Except.error e2 := by
  intro l
  induction l with
  | nil => intro h; simp at h
  | cons y ys ih =>
      intro hmem hfx
      cases hfy : f y with
      | error e2 => exact ⟨e2, by simp [mapExcept, hfy]⟩
      | ok v =>
        rcases List.mem_cons.mp hmem with rfl | hmem2
        · rw [hfy] at hfx; cases hfx
        · obtain ⟨e2, hm⟩ := ih hmem2 hfx
          exact ⟨e2, by simp [mapExcept, hfy, hm]⟩

theorem mapExcept_append_error {α β ε : Type} {f : α → Except ε β} {x : α} {e : ε} :
    ∀ {l1 : List α} (l2 : List α), (∀ y ∈ l1, ∃ r, f y = Except.ok r) →
      f x = Except.error e →
      mapExcept f (l1 ++ x :: l2) = Except.error e := by
  intro l1
  induction l1 with
  | nil =>
      intro l2 _ hfx
      simp [mapExcept, hfx]
  | cons y ys ih =>
      intro l2 hok hfx
      obtain ⟨r, hr⟩ := hok y (List.mem_cons_self y ys)
      have htail := ih l2 (fun z hz => hok z (List.mem_cons_of_mem y hz)) hfx
      simp [mapExcept, hr, htail]

theorem decodeUtf16_of_no_surrogate {l : List Nat} (h : ∀ u ∈ l, u < 0xD800) :
    decodeUtf16 l = some l := by
  induction l with
  | nil => rfl
  | cons u rest ih =>
      have hu : u < 0xD800 := h u (List.mem_cons_self u rest)
      have hrest := ih (fun v hv => h v (List.mem_cons_of_mem u hv))
      rw [decodeUtf16.eq_def]
      simp [hu, hrest]

/-- Modelled from the spec words of the Name Decoder contract, as the
refinement target of the branch-selection claim: if the byte payload's
length is even AND its first byte is zero, decode as big-endian UTF-16
(decoding failure is a hard error), otherwise decode as UTF-8 with lossy
replacement. -/
def nameDecodeSpec (bytes : List Nat) : DecodeResult :=
  if bytes.length % 2 = 0 ∧ bytes.head? = some 0 then
    match decodeUtf16 (bytesToUnits bytes) with
    | some cps => .ok (codePointsToString cps)
    | none => .utf16Error
  else
    .ok (codePointsToString (utf8Lossy bytes))

/-- The big-endian UTF-16 encoding of a list of BMP characters: two bytes,
high first, per character (the round-trip claim only uses characters below
256, whose high byte is zero). -/
def utf16beEncodeChars (cs : List Char) : List Nat :=
  cs.foldr (fun c acc => c.toNat / 256 :: c.toNat % 256 :: acc) []

/-- The big-endian UTF-16 encoding of a string of BMP characters. -/
def utf16beEncode (s : String) : List Nat := utf16beEncodeChars s.data

theorem utf16beEncodeChars_length (cs : List Char) :
    (utf16beEncodeChars cs).length = 2 * cs.length := by
  induction cs with
  | nil => rfl
  | cons c cs ih =>
      simp only [utf16beEncodeChars, List.foldr_cons, List.length_cons] at *
      omega

theorem bytesToUnits_encodeChars (cs : List Char) :
    bytesToUnits (utf16beEncodeChars cs) = cs.map Char.toNat := by
  induction cs with
  | nil => rfl
  | cons c cs ih =>
      simp only [utf16beEncodeChars, List.foldr_cons, List.map_cons] at *
      rw [bytesToUnits]
      rw [ih]
      have : c.toNat / 256 * 256 + c.toNat % 256 = c.toNat := by omega
      rw [this]

/-- C1: For every name record whose byte payload is non-empty, the Name
Decoder decodes the payload as big-endian UTF-16 (consecutive byte pairs as
16-bit code units) if and only if the payload's length is even AND its first
byte is zero (i.e. it agrees with the spec-side decoder `nameDecodeSpec` on
every non-empty payload); in every other case it decodes the payload as
UTF-8 with lossy replacement, and that UTF-8 branch never fails. -/
theorem name_decoder_heuristic (bytes : List Nat) (hne : bytes ≠ []) :
    decodeNameBytes bytes = nameDecodeSpec bytes ∧
    (¬(bytes.length % 2 = 0 ∧ bytes.head? = some 0) →
      decodeNameBytes bytes = DecodeResult.ok (codePointsToString (utf8Lossy bytes))) := by
  cases bytes with
  | nil => exact absurd rfl hne
  | cons b0 rest =>
      by_cases hb : b0 = 0 ∧ (b0 :: rest).length % 2 = 0
      · have hb2 : (b0 :: rest).length % 2 = 0 ∧ some b0 = some (0 : Nat) :=
          ⟨hb.2, by rw [hb.1]⟩
        refine ⟨?_, fun hc => absurd ⟨hb.2, by simp [hb.1]⟩ hc⟩
        simp only [decodeNameBytes, nameDecodeSpec, List.head?]
        rw [if_pos hb, if_pos hb2]
      · have hb2 : ¬((b0 :: rest).length % 2 = 0 ∧ some b0 = some (0 : Nat)) := by
          intro h2
          exact hb ⟨Option.some.inj h2.2, h2.1⟩
        refine ⟨?_, fun _ => ?_⟩ <;>
          · simp only [decodeNameBytes, nameDecodeSpec, List.head?]
            rw [if_neg hb]
            try rw [if_neg hb2]

/-- C1 witness: the concrete payload `[0x41]` (odd length) goes down the
lossy-UTF-8 branch and succeeds. -/
theorem name_decoder_heuristic_witness :
    decodeNameBytes [0x41] = DecodeResult.ok (codePointsToString (utf8Lossy [0x41])) :=
  (name_decoder_heuristic [0x41] (by decide)).2 (by decide)

/-- C9 (implicit): the Name Decoder indexes the first byte before any length
check, so on the empty payload it panics (models the Rust out-of-bounds
index panic); on every non-empty payload it never panics, returning either a
decoded string or a UTF-16 decode error. -/
theorem name_decoder_empty_panics :
    decodeNameBytes [] = DecodeResult.panic ∧
    ∀ bytes : List Nat, bytes ≠ [] → decodeNameBytes bytes ≠ DecodeResult.panic := by
  refine ⟨rfl, ?_⟩
  intro bytes hne
  cases bytes with
  | nil => exact absurd rfl hne
  | cons b rest =>
      simp only [decodeNameBytes, List.head?]
      by_cases hb : b = 0 ∧ (b :: rest).length % 2 = 0
      · rw [if_pos hb]
        cases decodeUtf16 (bytesToUnits (b :: rest)) <;> simp
      · rw [if_neg hb]
        simp

/-- C9 witness: the one-byte payload `[0x41]` does not panic. -/
theorem name_decoder_empty_panics_witness :
    decodeNameBytes [0x41] ≠ DecodeResult.panic :=
  name_decoder_empty_panics.2 [0x41] (by decide)

/-- C3 counterexample: the claim quantifies over every string whose
characters are below 256, but for the empty string the payload is empty and
the decoder panics instead of reproducing the string. -/
theorem utf16be_roundtrip_empty_fails :
    decodeNameBytes (utf16beEncode "") ≠ DecodeResult.ok "" := by decide

/-- C3 (amended: non-empty strings): for every non-empty string whose
characters all have code points below 256, decoding the payload consisting
of its big-endian UTF-16 encoding reproduces that string exactly; in
particular the payload bytes 00 48 00 69 decode to "Hi". -/
theorem utf16be_roundtrip (s : String) (hne : s ≠ "")
    (hlt : ∀ c ∈ s.data, c.toNat < 256) :
    decodeNameBytes (utf16beEncode s) = DecodeResult.ok s := by
  obtain ⟨cs⟩ := s
  cases cs with
  | nil => exact absurd rfl hne
  | cons c0 cs2 =>
      have hunits : bytesToUnits (utf16beEncodeChars (c0 :: cs2)) =
          (c0 :: cs2).map Char.toNat := bytesToUnits_encodeChars (c0 :: cs2)
      have hdec : decodeUtf16 ((c0 :: cs2).map Char.toNat) =
          some ((c0 :: cs2).map Char.toNat) := by
        refine decodeUtf16_of_no_surrogate ?_
        intro u hu
        obtain ⟨c, hc, rfl⟩ := List.mem_map.mp hu
        exact lt_trans (hlt c hc) (by norm_num)
      have hc0 : c0.toNat < 256 := hlt c0 (List.mem_cons_self c0 cs2)
      have hhead : c0.toNat / 256 = 0 := Nat.div_eq_of_lt hc0
      have hlen : (utf16beEncodeChars (c0 :: cs2)).length % 2 = 0 := by
        rw [utf16beEncodeChars_length]
        omega
      have hshape : utf16beEncodeChars (c0 :: cs2) =
          c0.toNat / 256 :: c0.toNat % 256 :: utf16beEncodeChars cs2 := rfl
      have hhead2 : (utf16beEncodeChars (c0 :: cs2)).head? = some 0 := by
        rw [hshape]
        simp [hhead]
      have hstr : codePointsToString ((c0 :: cs2).map Char.toNat) =
          String.mk (c0 :: cs2) := by
        simp only [codePointsToString, List.map_map]
        congr 1
        refine List.map_congr_left ?_ |>.trans (List.map_id _)
        intro c _
        exact Char.ofNat_toNat c
      show decodeNameBytes (utf16beEncodeChars (c0 :: cs2)) = _
      simp only [decodeNameBytes, hhead2]
      rw [if_pos ⟨trivial, hlen⟩, hunits, hdec]
      exact congrArg DecodeResult.ok hstr

/-- C3 witness: the round-trip at the concrete string "Hi", whose encoding
is the payload 00 48 00 69. -/
theorem utf16be_roundtrip_witness :
    decodeNameBytes (utf16beEncode "Hi") = DecodeResult.ok "Hi" ∧
    utf16beEncode "Hi" = [0, 0x48, 0, 0x69] :=
  ⟨utf16be_roundtrip "Hi" (by decide) (by decide), by decide⟩

/-- C2: if any name record of a parsed font view is classified as UTF-16 by
the heuristic (first byte zero, even length) and its code-unit sequence is
invalid UTF-16, then building that Font errors, and so does building the
Collection containing it: no per-name recovery, no partially-populated
Font. -/
theorem font_fails_on_bad_utf16_name (input : FontFile) (ix : Nat) (view : FontView)
    (raw : RawName)
    (hix : ix < input.collection_count.getD 1)
    (hview : input.fonts ix = some view)
    (hmem : raw ∈ view.names)
    (hzero : raw.name.head? = some 0)
    (heven : raw.name.length % 2 = 0)
    (hbad : decodeUtf16 (bytesToUnits raw.name) = none) :
    (∃ e, Font.from_bytes input ix = Except.error e) ∧
    (∃ e2, Collection.from_bytes input = Except.error e2) := by
  have hname : Name.tryFrom raw = Except.error ExtractError.utf16DecodeError := by
    have hdec : decodeNameBytes raw.name = DecodeResult.utf16Error := by
      cases hr : raw.name with
      | nil => rw [hr] at hzero; simp at hzero
      | cons b0 rest =>
          rw [hr] at hzero heven hbad
          have hb0 : b0 = 0 := by simpa using hzero
          simp only [decodeNameBytes, List.head?]
          rw [if_pos ⟨hb0, heven⟩, hbad]
    simp [Name.tryFrom, hdec]
  obtain ⟨e, hmap⟩ := mapExcept_error_of_mem hmem hname
  have hfont : Font.from_bytes input ix = Except.error e := by
    simp [Font.from_bytes, hview, Font.fromView, hmap]
  have hixmem : ix ∈ List.range (input.collection_count.getD 1) := List.mem_range.mpr hix
  obtain ⟨e2, hmap2⟩ := mapExcept_error_of_mem hixmem hfont
  refine ⟨⟨e, hfont⟩, ⟨e2, ?_⟩⟩
  simp [Collection.from_bytes, hmap2]

/-- C4: on success, the Collection has exactly `count` fonts where `count`
is the declared collection count (or 1 for a single font), and entry `i` is
the font built from index `i`. -/
theorem collection_preserves_count_and_order (input : FontFile) (c : Collection)
    (h : Collection.from_bytes input = Except.ok c) :
    c.fonts.length = input.collection_count.getD 1 ∧
    ∀ i (hi : i < c.fonts.length),
      Font.from_bytes input i = Except.ok (c.fonts.get ⟨i, hi⟩) := by
  unfold Collection.from_bytes at h
  cases hm : mapExcept (Font.from_bytes input) (List.range (input.collection_count.getD 1)) with
  | error e => rw [hm] at h; simp at h
  | ok fonts =>
      rw [hm] at h
      simp only [Except.ok.injEq] at h
      subst h
      have hlen := mapExcept_ok_length hm
      rw [List.length_range] at hlen
      refine ⟨hlen, ?_⟩
      intro i hi
      have hi3 : i < fonts.length := hi
      have hi2 : i < (List.range (input.collection_count.getD 1)).length := by
        rw [List.length_range, ← hlen]
        exact hi3
      have hget := mapExcept_ok_get hm i hi2 hi3
      rwa [List.get_range] at hget

/-- C5: if every font index before `ix` parses and decodes, but index `ix`
(inside the loop range) cannot be parsed as a valid font, then Collection
construction fails with the error naming exactly that index, whose message
is "cannot parse font at index {ix}". -/
theorem collection_fails_on_unparsable_font (input : FontFile) (ix : Nat)
    (hix : ix < input.collection_count.getD 1)
    (hbad : input.fonts ix = none)
    (hgood : ∀ j, j < ix → ∃ f, Font.from_bytes input j = Except.ok f) :
    Collection.from_bytes input = Except.error (ExtractError.cannotParseFont ix) ∧
    (ExtractError.cannotParseFont ix).message =
      "cannot parse font at index " ++ toString ix := by
  refine ⟨?_, rfl⟩
  have hfx : Font.from_bytes input ix = Except.error (ExtractError.cannotParseFont ix) := by
    simp [Font.from_bytes, hbad]
  obtain ⟨k, hk⟩ := Nat.exists_eq_add_of_lt hix
  have hsplit : List.range (input.collection_count.getD 1) =
      List.range ix ++ ix :: List.map (fun j => ix + (j + 1)) (List.range k) := by
    have h1 : input.collection_count.getD 1 = ix + (k + 1) := by omega
    rw [h1, List.range_add, List.range_succ_eq_map]
    simp [List.map_map, Function.comp_def, Nat.succ_eq_add_one]
  have hmap := mapExcept_append_error
    (f := Font.from_bytes input) (x := ix) (e := ExtractError.cannotParseFont ix)
    (List.map (fun j => ix + (j + 1)) (List.range k))
    (fun y hy => hgood y (List.mem_range.mp hy)) hfx
  simp [Collection.from_bytes, hsplit, hmap]

/-- A concrete parsed font view with no name records and no variation axes,
used to instantiate the collection-level theorems. -/
def trivialView : FontView := {
  names := []
  family_name := none
  post_script_name := none
  is_regular := true
  is_italic := false
  is_bold := false
  is_oblique := false
  is_variable := false
  weight := "Normal"
  width := "Normal"
  ascender := 800
  descender := -200
  height := 1000
  line_gap := 0
  vertical_ascender := none
  vertical_descender := none
  vertical_height := none
  vertical_line_gap := none
  units_per_em := some 1000
  x_height := none
  underline_metrics := none
  strikeout_metrics := none
  subscript_metrics := none
  superscript_metrics := none
  variation_axes := [] }

/-- The Font obtained from `trivialView`. -/
def trivialFont : Font := {
  names := []
  family_name := none
  post_script_name := none
  is_regular := true
  is_italic := false
  is_bold := false
  is_oblique := false
  is_variable := false
  weight := "Normal"
  width := "Normal"
  ascender := 800
  descender := -200
  height := 1000
  line_gap := 0
  vertical_ascender := none
  vertical_descender := none
  vertical_height := none
  vertical_line_gap := none
  units_per_em := some 1000
  x_height := none
  underline_metrics := none
  strikeout_metrics := none
  subscript_metrics := none
  superscript_metrics := none
  variation_axes := [] }

/-- A name record classified as UTF-16 by the heuristic (first byte 0, even
length) whose code units `[0x0041, 0xD800]` end in an unpaired high
surrogate. -/
def c2BadName : RawName := {
  platform_id := some PlatformId.Windows
  name := [0, 0x41, 0xD8, 0x00]
  name_id := 1
  encoding_id := 1
  language_id := 0x0409 }

/-- A single-font input whose only font view carries the bad name record. -/
def c2Input : FontFile := {
  collection_count := none
  fonts := fun i => if i = 0 then some { trivialView with names := [c2BadName] } else none }

/-- C2 witness: the concrete input above makes both the Font and the
Collection constructions fail. -/
theorem font_fails_on_bad_utf16_name_witness :
    (∃ e, Font.from_bytes c2Input 0 = Except.error e) ∧
    (∃ e2, Collection.from_bytes c2Input = Except.error e2) :=
  font_fails_on_bad_utf16_name c2Input 0 { trivialView with names := [c2BadName] }
    c2BadName (by decide) rfl (List.mem_cons_self _ _) rfl rfl (by decide)

/-- A two-font collection input in which both indices parse. -/
def c4Input : FontFile := {
  collection_count := some 2
  fonts := fun i => if i < 2 then some trivialView else none }

/-- C4 witness: the two-font collection input yields exactly two fonts. -/
theorem collection_preserves_count_and_order_witness :
    (Collection.mk [trivialFont, trivialFont]).fonts.length =
      c4Input.collection_count.getD 1 :=
  (collection_preserves_count_and_order c4Input (Collection.mk [trivialFont, trivialFont])
    rfl).1

/-- An input in which no index parses as a font (the spec's fatal-error
scenario: a truncated buffer with a valid signature but no table
directory). -/
def c5Input : FontFile := {
  collection_count := none
  fonts := fun _ => none }

/-- C5 witness: extraction on that input fails naming font index 0. -/
theorem collection_fails_on_unparsable_font_witness :
    Collection.from_bytes c5Input = Except.error (ExtractError.cannotParseFont 0) ∧
    (ExtractError.cannotParseFont 0).message = "cannot parse font at index 0" :=
  collection_fails_on_unparsable_font c5Input 0 (by decide) rfl
    (fun j hj => absurd hj (Nat.not_lt_zero j))

/-- C6: the name-id resolver is total: 1 maps to Family, 9999 maps to
Unrecognised 9999, every id outside the recognized set maps to
Unrecognised carrying the id verbatim, and no recognized id is ever sent to
the Unrecognised escape. -/
theorem nameid_resolver_total :
    NameId.ofRaw 1 = NameId.Family ∧
    NameId.ofRaw 9999 = NameId.Unrecognised 9999 ∧
    (∀ n, n ∉ nameIdTable.map Prod.fst → NameId.ofRaw n = NameId.Unrecognised n) ∧
    (∀ n, n ∈ nameIdTable.map Prod.fst → ∀ m, NameId.ofRaw n ≠ NameId.Unrecognised m) := by
  refine ⟨by decide, by decide, ?_, ?_⟩
  · intro n hn
    have hfind : nameIdTable.find? (fun e => e.1 = n) = none := by
      rw [List.find?_eq_none]
      intro e he
      simp only [decide_eq_true_eq]
      intro h1
      exact hn (h1 ▸ List.mem_map_of_mem Prod.fst he)
    simp [NameId.ofRaw, hfind]
  · intro n hn m
    simp only [nameIdTable, List.map_cons, List.map_nil, List.mem_cons,
      List.not_mem_nil, or_false] at hn
    rcases hn with rfl | rfl | rfl | rfl | rfl | rfl | rfl | rfl | rfl | rfl | rfl | rfl |
      rfl | rfl | rfl | rfl | rfl | rfl | rfl | rfl | rfl | rfl | rfl | rfl | rfl <;>
      exact fun h => NameId.noConfusion h

/-- C6 witness: id 12345 is outside the recognized set and is preserved
verbatim, while recognized id 1 is never sent to the escape variant. -/
theorem nameid_resolver_total_witness :
    NameId.ofRaw 12345 = NameId.Unrecognised 12345 ∧
    NameId.ofRaw 1 ≠ NameId.Unrecognised 7 :=
  ⟨nameid_resolver_total.2.2.1 12345 (by decide),
   nameid_resolver_total.2.2.2 1 (by decide) 7⟩

/-- C7 counterexample: the claim spells the 0x0804 label with an ASCII
apostrophe (U+0027), but the code's label uses the right single quotation
mark (U+2019), so the two strings differ. -/
theorem language_resolver_ascii_apostrophe_counterexample :
    language (some PlatformId.Windows) 0x0804 ≠
      "Chinese (People" ++ String.mk [Char.ofNat 39] ++ "s Republic of China)" := by
  decide

/-- C7 (amended: the 0x0804 label is spelled with U+2019, the right single
quotation mark, as in the source): the language resolver is total; Windows
0x0409 resolves to "English (United States)", Windows 0x0804 to
"Chinese (People’s Republic of China)", any Windows id outside the fixed
lookup (e.g. 0x9999) to "unknown", and every non-Windows or unknown
platform to "unknown (todo)" regardless of language id. -/
theorem language_resolver_total :
    language (some PlatformId.Windows) 0x0409 = "English (United States)" ∧
    language (some PlatformId.Windows) 0x0804 = "Chinese (People’s Republic of China)" ∧
    language (some PlatformId.Windows) 0x9999 = "unknown" ∧
    (∀ lid, lid ∉ windowsLanguages.map Prod.fst →
      language (some PlatformId.Windows) lid = "unknown") ∧
    (∀ pid lid, pid ≠ some PlatformId.Windows → language pid lid = "unknown (todo)") := by
  refine ⟨by decide, by decide, by decide, ?_, ?_⟩
  · intro lid hlid
    have hfind : windowsLanguages.find? (fun e => e.1 = lid) = none := by
      rw [List.find?_eq_none]
      intro e he
      simp only [decide_eq_true_eq]
      intro h1
      exact hlid (h1 ▸ List.mem_map_of_mem Prod.fst he)
    simp [language, hfind]
  · intro pid lid hpid
    cases pid with
    | none => rfl
    | some p =>
        cases p with
        | Windows => exact absurd rfl hpid
        | Unicode => rfl
        | Macintosh => rfl
        | Iso => rfl
        | Custom => rfl

/-- C7 witness: the quantified branches at concrete inputs 0x9999 (Windows,
outside the lookup) and the Macintosh platform. -/
theorem language_resolver_total_witness :
    language (some PlatformId.Windows) 0x9999 = "unknown" ∧
    language (some PlatformId.Macintosh) 0x0409 = "unknown (todo)" :=
  ⟨language_resolver_total.2.2.2.1 0x9999 (by decide),
   language_resolver_total.2.2.2.2 (some PlatformId.Macintosh) 0x0409 (by decide)⟩

/-- C8: the axis conversion copies min/default/max (bit patterns), name-id
and hidden flag verbatim — with no hypothesis relating min, default and max,
so no ordering validation is involved — and the output tag is `none` exactly
when the raw tag is the null tag, otherwise the tag's four characters. -/
theorem variation_axis_passthrough (raw : RawVariationAxis) :
    (VariationAxis.ofRaw raw).min_value = raw.min_value ∧
    (VariationAxis.ofRaw raw).default_value = raw.def_value ∧
    (VariationAxis.ofRaw raw).max_value = raw.max_value ∧
    (VariationAxis.ofRaw raw).name_id = raw.name_id ∧
    (VariationAxis.ofRaw raw).hidden = raw.hidden ∧
    ((VariationAxis.ofRaw raw).tag = none ↔ raw.tag.value = 0) ∧
    (raw.tag.value ≠ 0 →
      (VariationAxis.ofRaw raw).tag = some (String.mk raw.tag.toChars)) := by
  refine ⟨rfl, rfl, rfl, rfl, rfl, ?_, ?_⟩
  · by_cases h : raw.tag.value = 0 <;> simp [VariationAxis.ofRaw, Tag.isNull, h]
  · intro h
    simp [VariationAxis.ofRaw, Tag.isNull, h]

/-- C8 witness: a concrete axis whose float bit patterns are out of order
(min 3.0, default 1.0, max 2.0) and whose tag is the non-null tag `wght`. -/
theorem variation_axis_passthrough_witness :
    (VariationAxis.ofRaw
      { tag := ⟨0x77676874⟩, min_value := ⟨0x40400000⟩, def_value := ⟨0x3F800000⟩,
        max_value := ⟨0x40000000⟩, name_id := 257, hidden := true }).tag =
      some (String.mk (Tag.toChars ⟨0x77676874⟩)) :=
  (variation_axis_passthrough
    { tag := ⟨0x77676874⟩, min_value := ⟨0x40400000⟩, def_value := ⟨0x3F800000⟩,
      max_value := ⟨0x40000000⟩, name_id := 257, hidden := true }).2.2.2.2.2.2 (by decide)

/-- C10 (implicit): Windows language-id 0 resolves to the literal label
"None", a distinct outcome that is neither "unknown" nor "unknown (todo)". -/
theorem windows_language_zero_is_none :
    language (some PlatformId.Windows) 0 = "None" ∧
    ("None" : String) ≠ "unknown" ∧
    ("None" : String) ≠ "unknown (todo)" := by
  refine ⟨by decide, by decide, by decide⟩
